import Mathlib

set_option maxHeartbeats 1000000

/-!
Shallow embedding of the vote-derivation, vote-mutation and flag-authorization
logic of the hypothes.is client's annotation action bar.

Two variants of the component exist in the repository:
* the inline tag scheme (`src/sidebar/components/Annotation/AnnotationActionBar.tsx`),
  where a vote is a tag `vote:{like|dislike}:{userid}:{timestamp}` on the target
  annotation itself, and
* the reply scheme (the unnamed variant file), where a vote is a separate reply
  annotation tagged `vote:like` / `vote:dislike`.

Strings are Lean `String`s; JS `Array.prototype.find/filter/some/includes`
become `List.find?/filter/any/contains`; the `string | null` userid becomes
`Option String`.
-/

/-- JS `s.startsWith(p)`: `p` is a prefix of `s`. -/
def jsStartsWith (s p : String) : Bool :=
  p.data.isPrefixOf s.data

/-- `const likePrefix = ` the string `vote:like:` (line 77). -/
def likePre : String := "vote:like:"

/-- `const dislikePrefix = ` the string `vote:dislike:` (line 78). -/
def dislikePre : String := "vote:dislike:"

/-- The TS union type `'like' | 'dislike'`. -/
inductive VoteType : Type
  | like
  | dislike
  deriving DecidableEq, Repr

/-- The string a `VoteType` interpolates to in a template literal. -/
def VoteType.toStr : VoteType → String
  | .like => "like"
  | .dislike => "dislike"

/-- `const otherType = type === 'like' ? 'dislike' : 'like'` (line 90). -/
def VoteType.other : VoteType → VoteType
  | .like => .dislike
  | .dislike => .like

/-- The template literal `vote:${type}:${userId}` used as a removal prefix in
`handleVote` (lines 93-94). -/
def votePre (ty : VoteType) (userId : String) : String :=
  "vote:" ++ ty.toStr ++ ":" ++ userId

/-- `tags.find(t => t.startsWith(likePrefix + userId))` (line 80). -/
def userLikeTag (tags : List String) (userId : String) : Option String :=
  tags.find? (fun t => jsStartsWith t (likePre ++ userId))

/-- `tags.find(t => t.startsWith(dislikePrefix + userId))` (line 81). -/
def userDislikeTag (tags : List String) (userId : String) : Option String :=
  tags.find? (fun t => jsStartsWith t (dislikePre ++ userId))

/-- `tags.filter(t => t.startsWith(likePrefix)).length` (line 82). -/
def likeCount (tags : List String) : Nat :=
  (tags.filter (fun t => jsStartsWith t likePre)).length

/-- `tags.filter(t => t.startsWith(dislikePrefix)).length` (line 83). -/
def dislikeCount (tags : List String) : Nat :=
  (tags.filter (fun t => jsStartsWith t dislikePre)).length

/-- The derived `viewerVote` value of the spec's VoteState. -/
inductive Vote : Type
  | like
  | dislike
  | none
  deriving DecidableEq, Repr

/-- The viewer's derived vote: `like` when `userLikeTag` is present (the like
button's `pressed` state, line 164), else `dislike` when `userDislikeTag` is
present (line 171), else `none`; like wins the defensive tie-break of spec
section 4.1. -/
def viewerVote (tags : List String) (userId : String) : Vote :=
  match userLikeTag tags userId with
  | some _ => Vote.like
  | Option.none =>
    match userDislikeTag tags userId with
    | some _ => Vote.dislike
    | Option.none => Vote.none

/-- The `newTags` local of `handleVote` (lines 91-95): drop every tag whose
prefix attributes it to the viewer for either vote type. -/
def newTagsOf (tags : List String) (userId : String) (ty : VoteType) : List String :=
  tags.filter (fun t =>
    !(jsStartsWith t (votePre ty userId)) &&
    !(jsStartsWith t (votePre ty.other userId)))

/-- The `alreadyVotedSameType` local of `handleVote` (lines 99-100). -/
def alreadyVotedSame (tags : List String) (userId : String) (ty : VoteType) : Bool :=
  match ty with
  | .like => (userLikeTag tags userId).isSome
  | .dislike => (userDislikeTag tags userId).isSome

/-- The new tag list computed by `handleVote` (lines 90-103): the filtered
`newTags`, with a fresh marker `vote:${type}:${userId}:${timestamp}` appended
unless the viewer had already voted the requested type. -/
def voteNewTags (tags : List String) (userId : String) (ty : VoteType)
    (timestamp : Nat) : List String :=
  if !(alreadyVotedSame tags userId ty) then
    newTagsOf tags userId ty ++ [votePre ty userId ++ ":" ++ toString timestamp]
  else
    newTagsOf tags userId ty

/-- The observable outcome of `handleVote`: either the login prompt is opened
and nothing is saved (lines 86-89), or a save of the annotation carrying the
new tag list is issued (line 106). -/
inductive VoteEffect : Type
  | requiresLogin
  | save (newTags : List String)
  deriving DecidableEq, Repr

/-- `handleVote` (lines 85-110): unauthenticated viewers only get the login
prompt; otherwise the new tag list is persisted. -/
def handleVote (isLoggedIn : Bool) (tags : List String) (userId : String)
    (ty : VoteType) (timestamp : Nat) : VoteEffect :=
  if !isLoggedIn then
    VoteEffect.requiresLogin
  else
    VoteEffect.save (voteNewTags tags userId ty timestamp)

/-- The slice of the service configuration object the action bar reads:
`allowFlagging` may be absent (`Option.none`). -/
structure Service : Type where
  allowFlagging : Option Bool
  deriving DecidableEq, Repr

/-- The slice of `SidebarSettings` the action bar reads: an optional service
configuration object. -/
structure Settings : Type where
  service : Option Service
  deriving DecidableEq, Repr

/-- Modelled from the spec: `serviceConfig` is imported from
`../../config/service-config`, which is not part of the given sources; per
spec section 6 the store/settings expose the configured service object, so it
is modelled as returning the settings' optional service configuration. -/
def serviceConfig (settings : Settings) : Option Service :=
  settings.service

/-- `flaggingEnabled` (lines 25-31): false exactly when the service
configuration is present and sets `allowFlagging` to the exact value `false`. -/
def flaggingEnabled (settings : Settings) : Bool :=
  match serviceConfig settings with
  | some service =>
    match service.allowFlagging with
    | some false => false
    | _ => true
  | Option.none => true

/-- JS truthiness of `userProfile.userid : string | null`:
`null` and the empty string are falsy. -/
def jsTruthyStr (s : Option String) : Bool :=
  match s with
  | some str => !(str == "")
  | Option.none => false

/-- `showFlagAction` (lines 69-72):
`flaggingEnabled(settings) && !!userProfile.userid && userProfile.userid !== annotation.user`. -/
def showFlagAction (settings : Settings) (userid : Option String)
    (annUser : String) : Bool :=
  flaggingEnabled settings && jsTruthyStr userid && !(userid == some annUser)

/-- The slice of an annotation the reply-scheme vote logic reads. -/
structure Ann : Type where
  id : String
  user : String
  tags : List String
  references : List String
  deriving DecidableEq, Repr

/-- `getVoteReplies` (reply-scheme variant, lines 110-125): annotations whose
`references` are non-empty, whose last reference is the parent's id, and that
carry some tag starting with `vote:`. -/
def getVoteReplies (allAnns : List Ann) (parentId : String) : List Ann :=
  allAnns.filter (fun a =>
    decide (0 < a.references.length) &&
    (a.references.getLast? == some parentId) &&
    a.tags.any (fun t => jsStartsWith t "vote:"))

/-- `voteReplies.filter(r => r.tags.includes('vote:like')).length` (line 129). -/
def replyLikeCount (allAnns : List Ann) (parentId : String) : Nat :=
  ((getVoteReplies allAnns parentId).filter
    (fun r => r.tags.contains "vote:like")).length

/-- `voteReplies.filter(r => r.tags.includes('vote:dislike')).length` (line 130). -/
def replyDislikeCount (allAnns : List Ann) (parentId : String) : Nat :=
  ((getVoteReplies allAnns parentId).filter
    (fun r => r.tags.contains "vote:dislike")).length

/-- `voteReplies.find(r => r.user === userid)` (line 134). -/
def myExistingVote (allAnns : List Ann) (parentId : String)
    (userid : String) : Option Ann :=
  (getVoteReplies allAnns parentId).find? (fun r => r.user == userid)

/-- `myVoteType` (lines 135-137): the category of the viewer's vote reply, a
reply not containing `vote:like` being classified `dislike`; `Option.none`
when the viewer has no vote reply. -/
def replyViewerVote (allAnns : List Ann) (parentId : String)
    (userid : String) : Option VoteType :=
  match myExistingVote allAnns parentId userid with
  | some r => some (if r.tags.contains "vote:like" then .like else .dislike)
  | Option.none => Option.none

/-- The payload of the vote reply built by `onVote` (lines 157-173): its
`references` chain and its tags. -/
structure VoteReplyPayload : Type where
  references : List String
  tags : List String
  deriving DecidableEq, Repr

/-- The reply payload `annFromData` receives in `onVote`: references extended
with the parent id, tags `['vote:{type}', 'user:{userid}', 'timestamp:{iso}']`. -/
def mkVoteReply (target : Ann) (userid iso : String)
    (ty : VoteType) : VoteReplyPayload :=
  { references := target.references ++ [target.id]
    tags := ["vote:" ++ ty.toStr, "user:" ++ userid, "timestamp:" ++ iso] }

/-- The observable outcome of the reply-scheme `onVote`. -/
inductive ReplyVoteEffect : Type
  | requiresLogin
  | deleteExisting (old : Ann)
  | deleteThenSave (old : Ann) (reply : VoteReplyPayload)
  | saveNew (reply : VoteReplyPayload)
  deriving DecidableEq, Repr

/-- `onVote` (reply-scheme variant, lines 139-179): unauthenticated viewers
only get the login prompt; a same-type vote deletes the existing vote reply; an
opposite-type vote deletes then saves; a fresh vote saves a new reply. -/
def onVote (isLoggedIn : Bool) (allAnns : List Ann) (target : Ann)
    (userid iso : String) (ty : VoteType) : ReplyVoteEffect :=
  if !isLoggedIn then
    ReplyVoteEffect.requiresLogin
  else
    match myExistingVote allAnns target.id userid with
    | some old =>
      if replyViewerVote allAnns target.id userid == some ty then
        ReplyVoteEffect.deleteExisting old
      else
        ReplyVoteEffect.deleteThenSave old (mkVoteReply target userid iso ty)
    | Option.none => ReplyVoteEffect.saveNew (mkVoteReply target userid iso ty)

/-- Number of tags in a list that the inline scheme's removal prefixes
attribute to the viewer `userId` (for either vote type). -/
def viewerVoteTagCount (tags : List String) (userId : String) : Nat :=
  (tags.filter (fun t =>
    jsStartsWith t (likePre ++ userId) ||
    jsStartsWith t (dislikePre ++ userId))).length

/-- Number of tags of the exact marker form `vote:{like|dislike}:{userId}:...`
(the embedded userid segment equals `userId`, i.e. it is followed by a colon). -/
def viewerVoteMarkerCount (tags : List String) (userId : String) : Nat :=
  (tags.filter (fun t =>
    jsStartsWith t (likePre ++ userId ++ ":") ||
    jsStartsWith t (dislikePre ++ userId ++ ":"))).length

/-- Splits a character list at every colon (each colon is a separator). -/
def colonSplit : List Char → List (List Char)
  | [] => [[]]
  | c :: rest =>
    match colonSplit rest with
    | [] => [[c]]
    | s :: ss => if c = ':' then [] :: s :: ss else (c :: s) :: ss

/-- Following the spec's words: the userid segment embedded in an inline vote
marker `vote:{type}:{userid}:{timestamp}` is the third colon-separated field. -/
def specTagUserSeg (t : String) : Option String :=
  ((colonSplit t.data).get? 2).map (fun cs => String.mk cs)

/-- Following the spec's words (section 4.1, inline scheme): `viewerVote` is
`like` or `dislike` when some matching tag's embedded userid segment is
exactly equal to the viewer id, with like precedence; else `none`. -/
def specViewerVote (tags : List String) (userId : String) : Vote :=
  if tags.any (fun t => jsStartsWith t likePre && (specTagUserSeg t == some userId)) then
    Vote.like
  else if tags.any (fun t => jsStartsWith t dislikePre && (specTagUserSeg t == some userId)) then
    Vote.dislike
  else
    Vote.none

/-- Following the spec's words (section 4.1, reply scheme): the vote replies
are the candidates with non-empty references ending at the parent id whose
tags contain `vote:like` or `vote:dislike`. -/
def specVoteReplies (allAnns : List Ann) (parentId : String) : List Ann :=
  allAnns.filter (fun a =>
    decide (0 < a.references.length) &&
    (a.references.getLast? == some parentId) &&
    (a.tags.contains "vote:like" || a.tags.contains "vote:dislike"))

/-- Following the spec's words: like votes among the spec's vote replies. -/
def specReplyLikeCount (allAnns : List Ann) (parentId : String) : Nat :=
  ((specVoteReplies allAnns parentId).filter
    (fun r => r.tags.contains "vote:like")).length

/-- Following the spec's words: dislike votes among the spec's vote replies. -/
def specReplyDislikeCount (allAnns : List Ann) (parentId : String) : Nat :=
  ((specVoteReplies allAnns parentId).filter
    (fun r => r.tags.contains "vote:dislike")).length

/-- Following the spec's words: the category of the (at most one) spec vote
reply whose user is the viewer, else `Option.none`. -/
def specReplyViewerVote (allAnns : List Ann) (parentId : String)
    (userid : String) : Option VoteType :=
  match (specVoteReplies allAnns parentId).find? (fun r => r.user == userid) with
  | some r => some (if r.tags.contains "vote:like" then .like else .dislike)
  | Option.none => Option.none

/-- Embeds the requested type into the derived-vote type. -/
def VoteType.toVote : VoteType → Vote
  | .like => Vote.like
  | .dislike => Vote.dislike

/-- The per-type head prefix (`vote:like:` / `vote:dislike:`). -/
def typeHead : VoteType → String
  | .like => likePre
  | .dislike => dislikePre

/-- The count of tags carrying the given vote type's head prefix
(`likeCount` / `dislikeCount`). -/
def countOf (ty : VoteType) (tags : List String) : Nat :=
  (tags.filter (fun t => jsStartsWith t (typeHead ty))).length

/-- Tag `t` is attributed to viewer `userId` for vote type `ty` by the inline
scheme's prefix test. -/
def uTag (userId : String) (ty : VoteType) (t : String) : Bool :=
  jsStartsWith t (typeHead ty ++ userId)

/-- The viewer's own tag of the given vote type
(`userLikeTag` / `userDislikeTag`). -/
def userTagOf (ty : VoteType) (tags : List String) (userId : String) : Option String :=
  match ty with
  | .like => userLikeTag tags userId
  | .dislike => userDislikeTag tags userId

/-- The tags surviving `handleVote`'s removal filter, phrased with `uTag`. -/
def keepTags (tags : List String) (userId : String) (ty : VoteType) : List String :=
  tags.filter (fun t => !(uTag userId ty t) && !(uTag userId ty.other t))

/-! ### Basic facts about prefixes -/

theorem jsStartsWith_iff {s p : String} :
    jsStartsWith s p = true ↔ p.data <+: s.data := by
  simp [jsStartsWith, List.isPrefixOf_iff_prefix]

theorem jsStartsWith_mono {s : String} (p q : String)
    (h : jsStartsWith s (p ++ q) = true) : jsStartsWith s p = true := by
  rw [jsStartsWith_iff] at h ⊢
  rw [String.data_append] at h
  exact (List.prefix_append p.data q.data).trans h

theorem jsStartsWith_append (p r : String) :
    jsStartsWith (p ++ r) p = true := by
  rw [jsStartsWith_iff, String.data_append]
  exact List.prefix_append _ _

theorem like_dislike_excl {s : String} (h1 : jsStartsWith s likePre = true)
    (h2 : jsStartsWith s dislikePre = true) : False := by
  rw [jsStartsWith_iff] at h1 h2
  rcases List.prefix_or_prefix_of_prefix h1 h2 with h | h
  · exact absurd h (by decide)
  · exact absurd h (by decide)

theorem head_excl {s : String} (ty : VoteType)
    (h1 : jsStartsWith s (typeHead ty) = true)
    (h2 : jsStartsWith s (typeHead ty.other) = true) : False := by
  cases ty
  · exact like_dislike_excl h1 h2
  · exact like_dislike_excl h2 h1

theorem votePre_eq (ty : VoteType) (uid : String) :
    votePre ty uid = typeHead ty ++ uid := by
  cases ty <;> rfl

theorem other_other (ty : VoteType) : ty.other.other = ty := by
  cases ty <;> rfl

theorem uTag_imp_head {uid : String} {ty : VoteType} {t : String}
    (h : uTag uid ty t = true) : jsStartsWith t (typeHead ty) = true :=
  jsStartsWith_mono _ _ h

theorem uTag_excl {uid : String} {ty : VoteType} {t : String}
    (h1 : uTag uid ty t = true) (h2 : uTag uid ty.other t = true) : False :=
  head_excl ty (uTag_imp_head h1) (uTag_imp_head h2)

theorem head_uTag_excl {uid : String} {ty : VoteType} {t : String}
    (h1 : jsStartsWith t (typeHead ty) = true)
    (h2 : uTag uid ty.other t = true) : False :=
  head_excl ty h1 (uTag_imp_head h2)

/-! ### Counting helpers -/

theorem length_filter_split {α : Type} (l : List α) (p q : α → Bool) :
    (l.filter p).length =
      (l.filter (fun a => p a && q a)).length +
      (l.filter (fun a => p a && !q a)).length := by
  induction l with
  | nil => rfl
  | cons a t ih =>
    by_cases hp : p a = true <;> by_cases hq : q a = true <;>
      simp [List.filter_cons, hp, hq, ih] <;> omega

theorem length_filter_mono {α : Type} (l : List α) (p q : α → Bool)
    (h : ∀ a ∈ l, p a = true → q a = true) :
    (l.filter p).length ≤ (l.filter q).length := by
  induction l with
  | nil => exact Nat.le_refl 0
  | cons a t ih =>
    have ht : ∀ x ∈ t, p x = true → q x = true :=
      fun x hx => h x (List.mem_cons_of_mem a hx)
    by_cases hp : p a = true
    · have hq := h a (List.mem_cons_self a t) hp
      simp [List.filter_cons, hp, hq]
      exact ih ht
    · by_cases hq : q a = true <;> simp [List.filter_cons, hp, hq] <;>
        [exact Nat.le_succ_of_le (ih ht); exact ih ht]

theorem length_filter_or_disj {α : Type} (l : List α) (p q : α → Bool)
    (h : ∀ a ∈ l, ¬(p a = true ∧ q a = true)) :
    (l.filter (fun a => p a || q a)).length =
      (l.filter p).length + (l.filter q).length := by
  induction l with
  | nil => rfl
  | cons a t ih =>
    have ht : ∀ x ∈ t, ¬(p x = true ∧ q x = true) :=
      fun x hx => h x (List.mem_cons_of_mem a hx)
    have ha := h a (List.mem_cons_self a t)
    by_cases hp : p a = true
    · by_cases hq : q a = true
      · exact absurd ⟨hp, hq⟩ ha
      · simp [List.filter_cons, hp, hq, ih ht]; omega
    · by_cases hq : q a = true <;> simp [List.filter_cons, hp, hq, ih ht] <;> omega

theorem one_le_length_filter {α : Type} {l : List α} {p : α → Bool} (a : α)
    (ha : a ∈ l) (hp : p a = true) : 1 ≤ (l.filter p).length := by
  have hmem : a ∈ l.filter p := List.mem_filter.mpr ⟨ha, hp⟩
  have hpos := List.length_pos.mpr (List.ne_nil_of_mem hmem)
  omega

/-! ### Characterizing the derived viewer vote -/

theorem viewerVote_eq_like {tags : List String} {uid : String} :
    viewerVote tags uid = Vote.like ↔ (userLikeTag tags uid).isSome = true := by
  cases h1 : userLikeTag tags uid <;> cases h2 : userDislikeTag tags uid <;>
    simp [viewerVote, h1, h2]

theorem viewerVote_eq_dislike {tags : List String} {uid : String} :
    viewerVote tags uid = Vote.dislike ↔
      userLikeTag tags uid = Option.none ∧
      (userDislikeTag tags uid).isSome = true := by
  cases h1 : userLikeTag tags uid <;> cases h2 : userDislikeTag tags uid <;>
    simp [viewerVote, h1, h2]

theorem viewerVote_eq_none {tags : List String} {uid : String} :
    viewerVote tags uid = Vote.none ↔
      userLikeTag tags uid = Option.none ∧
      userDislikeTag tags uid = Option.none := by
  cases h1 : userLikeTag tags uid <;> cases h2 : userDislikeTag tags uid <;>
    simp [viewerVote, h1, h2]

theorem userTagOf_find (ty : VoteType) (tags : List String) (uid : String) :
    userTagOf ty tags uid = tags.find? (fun t => uTag uid ty t) := by
  cases ty <;> rfl

theorem alreadyVotedSame_eq (tags : List String) (uid : String) (ty : VoteType) :
    alreadyVotedSame tags uid ty = (userTagOf ty tags uid).isSome := by
  cases ty <;> rfl

theorem newTagsOf_eq_keep (tags : List String) (uid : String) (ty : VoteType) :
    newTagsOf tags uid ty = keepTags tags uid ty := by
  unfold newTagsOf keepTags uTag
  rw [votePre_eq, votePre_eq]

theorem viewerVoteTagCount_eq (tags : List String) (uid : String) (ty : VoteType) :
    viewerVoteTagCount tags uid =
      (tags.filter (fun t => uTag uid ty t || uTag uid ty.other t)).length := by
  cases ty
  · rfl
  · unfold viewerVoteTagCount
    exact congrArg List.length
      (List.filter_congr (fun x _ => Bool.or_comm _ _))

/-! ### The removal filter -/

theorem mem_keep {tags : List String} {uid : String} {ty : VoteType} {x : String}
    (hx : x ∈ keepTags tags uid ty) :
    x ∈ tags ∧ uTag uid ty x = false ∧ uTag uid ty.other x = false := by
  have h := List.mem_filter.mp hx
  have h2 := h.2
  simp only [Bool.and_eq_true, Bool.not_eq_true'] at h2
  exact ⟨h.1, h2.1, h2.2⟩

theorem mem_keep_like_dislike {tags : List String} {uid : String} {ty : VoteType}
    {x : String} (hx : x ∈ keepTags tags uid ty) :
    uTag uid VoteType.like x = false ∧ uTag uid VoteType.dislike x = false := by
  obtain ⟨-, h1, h2⟩ := mem_keep hx
  cases ty
  · exact ⟨h1, h2⟩
  · exact ⟨h2, h1⟩

theorem userTags_keep_none (tags : List String) (uid : String) (ty : VoteType) :
    userLikeTag (keepTags tags uid ty) uid = Option.none ∧
    userDislikeTag (keepTags tags uid ty) uid = Option.none := by
  constructor
  · apply List.find?_eq_none.mpr
    intro x hx hc
    have h := (mem_keep_like_dislike hx).1
    rw [show jsStartsWith x (likePre ++ uid) = uTag uid VoteType.like x from rfl, h] at hc
    cases hc
  · apply List.find?_eq_none.mpr
    intro x hx hc
    have h := (mem_keep_like_dislike hx).2
    rw [show jsStartsWith x (dislikePre ++ uid) = uTag uid VoteType.dislike x from rfl, h] at hc
    cases hc

theorem viewerVote_keep_none (tags : List String) (uid : String) (ty : VoteType) :
    viewerVote (keepTags tags uid ty) uid = Vote.none :=
  viewerVote_eq_none.mpr (userTags_keep_none tags uid ty)

theorem keep_comm (tags : List String) (uid : String) (ty : VoteType) :
    keepTags tags uid ty.other = keepTags tags uid ty := by
  unfold keepTags
  rw [other_other]
  exact List.filter_congr (fun x _ => Bool.and_comm _ _)

theorem countOf_keep_split (tags : List String) (uid : String) (ty : VoteType) :
    countOf ty tags =
      (tags.filter (fun t => uTag uid ty t)).length +
      countOf ty (keepTags tags uid ty) := by
  have hs := length_filter_split tags (fun t => jsStartsWith t (typeHead ty))
    (fun t => uTag uid ty t || uTag uid ty.other t)
  have h1 : tags.filter
      (fun t => jsStartsWith t (typeHead ty) && (uTag uid ty t || uTag uid ty.other t)) =
      tags.filter (fun t => uTag uid ty t) := by
    apply List.filter_congr
    intro x _
    by_cases hU : uTag uid ty x = true
    · simp [hU, uTag_imp_head hU]
    · by_cases hV : uTag uid ty.other x = true
      · have hH : jsStartsWith x (typeHead ty) = false := by
          cases hb : jsStartsWith x (typeHead ty)
          · rfl
          · exact (head_uTag_excl hb hV).elim
        simp [hU, hV, hH]
      · simp [hU, hV]
  have h2 : tags.filter
      (fun t => jsStartsWith t (typeHead ty) && !(uTag uid ty t || uTag uid ty.other t)) =
      (keepTags tags uid ty).filter (fun t => jsStartsWith t (typeHead ty)) := by
    unfold keepTags
    rw [List.filter_filter]
    apply List.filter_congr
    intro x _
    simp [Bool.not_or]
  rw [h1, h2] at hs
  exact hs

theorem countOf_other_keep_split (tags : List String) (uid : String) (ty : VoteType) :
    countOf ty.other tags =
      (tags.filter (fun t => uTag uid ty.other t)).length +
      countOf ty.other (keepTags tags uid ty) := by
  have h := countOf_keep_split tags uid ty.other
  rwa [keep_comm] at h

theorem tagCount_sum (tags : List String) (uid : String) (ty : VoteType) :
    viewerVoteTagCount tags uid =
      (tags.filter (fun t => uTag uid ty t)).length +
      (tags.filter (fun t => uTag uid ty.other t)).length := by
  rw [viewerVoteTagCount_eq tags uid ty]
  exact length_filter_or_disj _ _ _ (fun x _ h => uTag_excl h.1 h.2)

theorem userTagOf_isSome (ty : VoteType) (tags : List String) (uid : String) :
    (userTagOf ty tags uid).isSome = true ↔ ∃ t ∈ tags, uTag uid ty t = true := by
  rw [userTagOf_find]
  exact List.find?_isSome

theorem userTagOf_none (ty : VoteType) (tags : List String) (uid : String) :
    userTagOf ty tags uid = Option.none ↔ ∀ t ∈ tags, uTag uid ty t = false := by
  rw [userTagOf_find, List.find?_eq_none]
  simp [Bool.not_eq_true]

theorem voteNewTags_already {tags : List String} {uid : String} {ty : VoteType}
    {ts : Nat} (h : (userTagOf ty tags uid).isSome = true) :
    voteNewTags tags uid ty ts = keepTags tags uid ty := by
  unfold voteNewTags
  rw [alreadyVotedSame_eq, h]
  simp [newTagsOf_eq_keep]

theorem voteNewTags_fresh {tags : List String} {uid : String} {ty : VoteType}
    {ts : Nat} (h : userTagOf ty tags uid = Option.none) :
    voteNewTags tags uid ty ts =
      keepTags tags uid ty ++ [votePre ty uid ++ ":" ++ toString ts] := by
  unfold voteNewTags
  rw [alreadyVotedSame_eq, h]
  simp [newTagsOf_eq_keep]

theorem newTag_uTag (uid : String) (ty : VoteType) (ts : Nat) :
    uTag uid ty (votePre ty uid ++ ":" ++ toString ts) = true := by
  unfold uTag
  rw [← votePre_eq, String.append_assoc]
  exact jsStartsWith_append _ _

theorem newTag_not_other (uid : String) (ty : VoteType) (ts : Nat) :
    uTag uid ty.other (votePre ty uid ++ ":" ++ toString ts) = false := by
  cases hb : uTag uid ty.other (votePre ty uid ++ ":" ++ toString ts)
  · rfl
  · exact (uTag_excl (newTag_uTag uid ty ts) hb).elim

/-! ### Core behaviour of the vote mutator -/

theorem toggle_core (tags : List String) (uid : String) (ty : VoteType) (ts : Nat)
    (hinv : viewerVoteTagCount tags uid ≤ 1)
    (hreq : (userTagOf ty tags uid).isSome = true) :
    viewerVote (voteNewTags tags uid ty ts) uid = Vote.none ∧
    countOf ty tags = countOf ty (voteNewTags tags uid ty ts) + 1 ∧
    countOf ty.other (voteNewTags tags uid ty ts) = countOf ty.other tags := by
  have hres : voteNewTags tags uid ty ts = keepTags tags uid ty :=
    voteNewTags_already hreq
  obtain ⟨t0, ht0, hU0⟩ := (userTagOf_isSome ty tags uid).mp hreq
  have hsum := tagCount_sum tags uid ty
  have hU1 : 1 ≤ (tags.filter (fun t => uTag uid ty t)).length :=
    one_le_length_filter t0 ht0 hU0
  have hsplit := countOf_keep_split tags uid ty
  have hsplitO := countOf_other_keep_split tags uid ty
  refine ⟨?_, ?_, ?_⟩
  · rw [hres]
    exact viewerVote_keep_none tags uid ty
  · rw [hres]
    omega
  · rw [hres]
    omega

theorem switch_core (tags : List String) (uid : String) (ty : VoteType) (ts : Nat)
    (hinv : viewerVoteTagCount tags uid ≤ 1)
    (hOther : (userTagOf ty.other tags uid).isSome = true) :
    viewerVote (voteNewTags tags uid ty ts) uid = ty.toVote ∧
    countOf ty (voteNewTags tags uid ty ts) = countOf ty tags + 1 ∧
    countOf ty.other tags = countOf ty.other (voteNewTags tags uid ty ts) + 1 ∧
    ∀ t ∈ voteNewTags tags uid ty ts, uTag uid ty.other t = false := by
  obtain ⟨t0, ht0, hV0⟩ := (userTagOf_isSome ty.other tags uid).mp hOther
  have hsum := tagCount_sum tags uid ty
  have hV1 : 1 ≤ (tags.filter (fun t => uTag uid ty.other t)).length :=
    one_le_length_filter t0 ht0 hV0
  have hnone : userTagOf ty tags uid = Option.none := by
    rw [userTagOf_none]
    intro t ht
    cases hb : uTag uid ty t
    · rfl
    · have := one_le_length_filter (p := fun t => uTag uid ty t) t ht hb
      omega
  have hres : voteNewTags tags uid ty ts =
      keepTags tags uid ty ++ [votePre ty uid ++ ":" ++ toString ts] :=
    voteNewTags_fresh hnone
  have hheadT : jsStartsWith (votePre ty uid ++ ":" ++ toString ts) (typeHead ty) = true :=
    uTag_imp_head (newTag_uTag uid ty ts)
  have hheadO : jsStartsWith (votePre ty uid ++ ":" ++ toString ts) (typeHead ty.other) = false := by
    cases hb : jsStartsWith (votePre ty uid ++ ":" ++ toString ts) (typeHead ty.other)
    · rfl
    · exact (head_excl ty hheadT hb).elim
  have hA : (userTagOf ty (voteNewTags tags uid ty ts) uid).isSome = true := by
    rw [userTagOf_isSome, hres]
    exact ⟨votePre ty uid ++ ":" ++ toString ts,
      List.mem_append_right _ (List.mem_singleton.mpr rfl), newTag_uTag uid ty ts⟩
  have hB : userTagOf ty.other (voteNewTags tags uid ty ts) uid = Option.none := by
    rw [userTagOf_none, hres]
    intro t ht
    rcases List.mem_append.mp ht with hk | hn
    · exact (mem_keep hk).2.2
    · rw [List.mem_singleton.mp hn]
      exact newTag_not_other uid ty ts
  have hsplit := countOf_keep_split tags uid ty
  have hsplitO := countOf_other_keep_split tags uid ty
  have happT : countOf ty (voteNewTags tags uid ty ts) =
      countOf ty (keepTags tags uid ty) + 1 := by
    rw [hres]
    unfold countOf
    rw [List.filter_append]
    simp [List.filter_cons, hheadT]
  have happO : countOf ty.other (voteNewTags tags uid ty ts) =
      countOf ty.other (keepTags tags uid ty) := by
    rw [hres]
    unfold countOf
    rw [List.filter_append]
    simp [List.filter_cons, hheadO]
  refine ⟨?_, by omega, by omega, (userTagOf_none _ _ _).mp hB⟩
  cases ty
  · exact viewerVote_eq_like.mpr hA
  · exact viewerVote_eq_dislike.mpr ⟨hB, hA⟩

theorem fresh_core (tags : List String) (uid : String) (ty : VoteType) (ts : Nat)
    (hnone : viewerVote tags uid = Vote.none) :
    voteNewTags tags uid ty ts = tags ++ [votePre ty uid ++ ":" ++ toString ts] := by
  obtain ⟨hL, hD⟩ := viewerVote_eq_none.mp hnone
  have h1 : ∀ t ∈ tags, uTag uid VoteType.like t = false :=
    (userTagOf_none VoteType.like tags uid).mp hL
  have h2 : ∀ t ∈ tags, uTag uid VoteType.dislike t = false :=
    (userTagOf_none VoteType.dislike tags uid).mp hD
  have hkeep : keepTags tags uid ty = tags := by
    apply List.filter_eq_self.mpr
    intro x hx
    have hLx := h1 x hx
    have hDx := h2 x hx
    cases ty
    · simp [VoteType.other, hLx, hDx]
    · simp [VoteType.other, hLx, hDx]
  have hn : userTagOf ty tags uid = Option.none := by
    rw [userTagOf_none]
    intro t ht
    cases ty
    · exact h1 t ht
    · exact h2 t ht
  rw [voteNewTags_fresh hn, hkeep]

/-! ### Claim theorems: inline scheme -/

theorem markerCount_le (tags : List String) (uid : String) :
    viewerVoteMarkerCount tags uid ≤ viewerVoteTagCount tags uid := by
  unfold viewerVoteMarkerCount viewerVoteTagCount
  apply length_filter_mono
  intro t _ h
  rw [Bool.or_eq_true] at h ⊢
  rcases h with h | h
  · exact Or.inl (jsStartsWith_mono _ _ h)
  · exact Or.inr (jsStartsWith_mono _ _ h)

theorem tagCount_keep_zero (tags : List String) (uid : String) (ty : VoteType) :
    viewerVoteTagCount (keepTags tags uid ty) uid = 0 := by
  unfold viewerVoteTagCount
  rw [List.length_eq_zero]
  apply List.filter_eq_nil_iff.mpr
  intro x hx
  have h := mem_keep_like_dislike hx
  simp only [uTag, typeHead] at h
  simp [h.1, h.2]

theorem tagCount_append (l1 l2 : List String) (uid : String) :
    viewerVoteTagCount (l1 ++ l2) uid =
      viewerVoteTagCount l1 uid + viewerVoteTagCount l2 uid := by
  unfold viewerVoteTagCount
  rw [List.filter_append, List.length_append]

/-- Claim C3 (confirmed): whatever the input tag list — even one violating the
one-vote-per-viewer invariant — the tag list produced by `handleVote`'s mutator
contains at most one tag attributed to the viewer by the removal prefixes
`vote:like:{uid}` / `vote:dislike:{uid}`, and in particular at most one tag of
the exact marker form `vote:*:{uid}:*`. -/
theorem inline_vote_invariant (tags : List String) (uid : String)
    (ty : VoteType) (ts : Nat) :
    viewerVoteTagCount (voteNewTags tags uid ty ts) uid ≤ 1 ∧
    viewerVoteMarkerCount (voteNewTags tags uid ty ts) uid ≤ 1 := by
  have hmain : viewerVoteTagCount (voteNewTags tags uid ty ts) uid ≤ 1 := by
    cases h : (userTagOf ty tags uid).isSome
    · have hn : userTagOf ty tags uid = Option.none := by
        cases ho : userTagOf ty tags uid
        · rfl
        · rw [ho] at h
          cases h
      rw [voteNewTags_fresh hn, tagCount_append, tagCount_keep_zero]
      have hle : viewerVoteTagCount [votePre ty uid ++ ":" ++ toString ts] uid ≤ 1 := by
        unfold viewerVoteTagCount
        exact Nat.le_trans (List.length_filter_le _ _) (by simp)
      omega
    · rw [voteNewTags_already h, tagCount_keep_zero]
      exact Nat.zero_le 1
  exact ⟨hmain, Nat.le_trans (markerCount_le _ _) hmain⟩

/-- Claim C1 (amended): for a tag list satisfying the at-most-one-viewer-vote-tag
invariant, if the derived viewer vote equals the requested type, the vote
mutation yields a viewer vote of `none`, decrements the requested type's count
by exactly one and leaves the other count unchanged. -/
theorem inline_toggle_law (tags : List String) (uid : String) (ty : VoteType)
    (ts : Nat) (hinv : viewerVoteTagCount tags uid ≤ 1)
    (hv : viewerVote tags uid = ty.toVote) :
    viewerVote (voteNewTags tags uid ty ts) uid = Vote.none ∧
    (ty = VoteType.like →
      likeCount tags = likeCount (voteNewTags tags uid ty ts) + 1 ∧
      dislikeCount (voteNewTags tags uid ty ts) = dislikeCount tags) ∧
    (ty = VoteType.dislike →
      dislikeCount tags = dislikeCount (voteNewTags tags uid ty ts) + 1 ∧
      likeCount (voteNewTags tags uid ty ts) = likeCount tags) := by
  have hreq : (userTagOf ty tags uid).isSome = true := by
    cases ty
    · exact viewerVote_eq_like.mp hv
    · exact (viewerVote_eq_dislike.mp hv).2
  obtain ⟨h1, h2, h3⟩ := toggle_core tags uid ty ts hinv hreq
  refine ⟨h1, ?_, ?_⟩
  · rintro rfl
    exact ⟨h2, h3⟩
  · rintro rfl
    exact ⟨h2, h3⟩

/-- Witness for C1's theorem at a concrete input. -/
theorem inline_toggle_law_witness :
    (viewerVoteTagCount ["vote:like:u:5"] "u" ≤ 1 ∧
     viewerVote ["vote:like:u:5"] "u" = VoteType.like.toVote) ∧
    (viewerVote (voteNewTags ["vote:like:u:5"] "u" VoteType.like 7) "u" = Vote.none ∧
     (VoteType.like = VoteType.like →
       likeCount ["vote:like:u:5"] =
         likeCount (voteNewTags ["vote:like:u:5"] "u" VoteType.like 7) + 1 ∧
       dislikeCount (voteNewTags ["vote:like:u:5"] "u" VoteType.like 7) =
         dislikeCount ["vote:like:u:5"]) ∧
     (VoteType.like = VoteType.dislike →
       dislikeCount ["vote:like:u:5"] =
         dislikeCount (voteNewTags ["vote:like:u:5"] "u" VoteType.like 7) + 1 ∧
       likeCount (voteNewTags ["vote:like:u:5"] "u" VoteType.like 7) =
         likeCount ["vote:like:u:5"])) :=
  ⟨⟨by decide, by decide⟩,
   inline_toggle_law ["vote:like:u:5"] "u" VoteType.like 7 (by decide) (by decide)⟩

/-- Counterexample to claim C1 as stated (universally over tag lists): on an
invariant-violating list holding both a like and a dislike marker for the
viewer, toggling the like also removes the dislike marker, so `dislikeCount`
changes. -/
theorem inline_toggle_law_cex :
    viewerVote ["vote:like:u:1", "vote:dislike:u:2"] "u" = Vote.like ∧
    dislikeCount ["vote:like:u:1", "vote:dislike:u:2"] = 1 ∧
    dislikeCount (voteNewTags ["vote:like:u:1", "vote:dislike:u:2"] "u" VoteType.like 9) = 0 := by
  decide

/-- Claim C4 (amended): for a tag list satisfying the at-most-one-viewer-vote-tag
invariant, a viewer whose derived vote is `dislike` requesting `like` obtains a
tag list whose re-derived vote is `like`, with `likeCount` incremented and
`dislikeCount` decremented by exactly one, and the produced tag list carries no
dislike marker for the viewer (both markers are never present together). -/
theorem inline_switch_law (tags : List String) (uid : String) (ts : Nat)
    (hinv : viewerVoteTagCount tags uid ≤ 1)
    (hv : viewerVote tags uid = Vote.dislike) :
    viewerVote (voteNewTags tags uid VoteType.like ts) uid = Vote.like ∧
    likeCount (voteNewTags tags uid VoteType.like ts) = likeCount tags + 1 ∧
    dislikeCount tags = dislikeCount (voteNewTags tags uid VoteType.like ts) + 1 ∧
    ∀ t ∈ voteNewTags tags uid VoteType.like ts,
      jsStartsWith t (dislikePre ++ uid) = false := by
  have hOther : (userTagOf VoteType.like.other tags uid).isSome = true :=
    (viewerVote_eq_dislike.mp hv).2
  obtain ⟨h1, h2, h3, h4⟩ := switch_core tags uid VoteType.like ts hinv hOther
  exact ⟨h1, h2, h3, h4⟩

/-- Witness for C4's theorem at a concrete input. -/
theorem inline_switch_law_witness :
    (viewerVoteTagCount ["vote:dislike:u:3"] "u" ≤ 1 ∧
     viewerVote ["vote:dislike:u:3"] "u" = Vote.dislike) ∧
    (viewerVote (voteNewTags ["vote:dislike:u:3"] "u" VoteType.like 4) "u" = Vote.like ∧
     likeCount (voteNewTags ["vote:dislike:u:3"] "u" VoteType.like 4) =
       likeCount ["vote:dislike:u:3"] + 1 ∧
     dislikeCount ["vote:dislike:u:3"] =
       dislikeCount (voteNewTags ["vote:dislike:u:3"] "u" VoteType.like 4) + 1 ∧
     ∀ t ∈ voteNewTags ["vote:dislike:u:3"] "u" VoteType.like 4,
       jsStartsWith t (dislikePre ++ "u") = false) :=
  ⟨⟨by decide, by decide⟩,
   inline_switch_law ["vote:dislike:u:3"] "u" 4 (by decide) (by decide)⟩

/-- Counterexample to claim C4 as stated (universally over tag lists): on an
invariant-violating list holding two dislike markers for the viewer, switching
to like removes both, so `dislikeCount` drops by two rather than one. -/
theorem inline_switch_law_cex :
    viewerVote ["vote:dislike:u:1", "vote:dislike:u:2"] "u" = Vote.dislike ∧
    dislikeCount ["vote:dislike:u:1", "vote:dislike:u:2"] = 2 ∧
    dislikeCount (voteNewTags ["vote:dislike:u:1", "vote:dislike:u:2"] "u" VoteType.like 9) = 0 := by
  decide

/-- Claim C6 (confirmed): on a tag list containing no tag starting with
`vote:like:` or `vote:dislike:`, the derivation yields zero like and dislike
counts and a viewer vote of `none`, for every viewer. -/
theorem empty_derivation_baseline (tags : List String) (uid : String)
    (h : ∀ t ∈ tags, jsStartsWith t likePre = false ∧ jsStartsWith t dislikePre = false) :
    likeCount tags = 0 ∧ dislikeCount tags = 0 ∧ viewerVote tags uid = Vote.none := by
  have hlc : likeCount tags = 0 := by
    unfold likeCount
    rw [List.length_eq_zero]
    exact List.filter_eq_nil_iff.mpr (fun a ha => by simp [(h a ha).1])
  have hdc : dislikeCount tags = 0 := by
    unfold dislikeCount
    rw [List.length_eq_zero]
    exact List.filter_eq_nil_iff.mpr (fun a ha => by simp [(h a ha).2])
  have hL : userLikeTag tags uid = Option.none := by
    apply List.find?_eq_none.mpr
    intro x hx hc
    have hm : jsStartsWith x likePre = true := jsStartsWith_mono likePre uid hc
    rw [(h x hx).1] at hm
    cases hm
  have hD : userDislikeTag tags uid = Option.none := by
    apply List.find?_eq_none.mpr
    intro x hx hc
    have hm : jsStartsWith x dislikePre = true := jsStartsWith_mono dislikePre uid hc
    rw [(h x hx).2] at hm
    cases hm
  exact ⟨hlc, hdc, viewerVote_eq_none.mpr ⟨hL, hD⟩⟩

/-- Witness for C6's theorem at a concrete input. -/
theorem empty_derivation_baseline_witness :
    (∀ t ∈ ["topic", "vote", "review"],
      jsStartsWith t likePre = false ∧ jsStartsWith t dislikePre = false) ∧
    (likeCount ["topic", "vote", "review"] = 0 ∧
     dislikeCount ["topic", "vote", "review"] = 0 ∧
     viewerVote ["topic", "vote", "review"] "u" = Vote.none) :=
  ⟨by decide, empty_derivation_baseline ["topic", "vote", "review"] "u" (by decide)⟩

/-- Claim C7 (confirmed): when the viewer's derived vote is `none`, applying a
vote appends exactly one new marker for the viewer and leaves every other
element of the tag list unchanged and in order. -/
theorem fresh_vote_frame (tags : List String) (uid : String) (ty : VoteType)
    (ts : Nat) (h : viewerVote tags uid = Vote.none) :
    voteNewTags tags uid ty ts = tags ++ [votePre ty uid ++ ":" ++ toString ts] :=
  fresh_core tags uid ty ts h

/-- Witness for C7's theorem at a concrete input. -/
theorem fresh_vote_frame_witness :
    viewerVote ["alpha", "beta"] "u" = Vote.none ∧
    voteNewTags ["alpha", "beta"] "u" VoteType.like 3 =
      ["alpha", "beta"] ++ [votePre VoteType.like "u" ++ ":" ++ toString 3] :=
  ⟨by decide, fresh_vote_frame ["alpha", "beta"] "u" VoteType.like 3 (by decide)⟩

/-- Claim C2 (amended): the derived viewer vote is `like` exactly when some tag
starts with `vote:like:` followed by the viewer id — attribution is by prefix
on the embedded userid, so an embedded id having the viewer id as a proper
prefix is also attributed to the viewer — `dislike` exactly when no such like
tag exists and some tag starts with `vote:dislike:` followed by the viewer id,
and `none` otherwise. -/
theorem inline_viewer_vote_by_tag_start (tags : List String) (uid : String) :
    (viewerVote tags uid = Vote.like ↔
      ∃ t ∈ tags, jsStartsWith t (likePre ++ uid) = true) ∧
    (viewerVote tags uid = Vote.dislike ↔
      ((∀ t ∈ tags, jsStartsWith t (likePre ++ uid) = false) ∧
       ∃ t ∈ tags, jsStartsWith t (dislikePre ++ uid) = true)) ∧
    (viewerVote tags uid = Vote.none ↔
      ((∀ t ∈ tags, jsStartsWith t (likePre ++ uid) = false) ∧
       (∀ t ∈ tags, jsStartsWith t (dislikePre ++ uid) = false))) := by
  refine ⟨?_, ?_, ?_⟩
  · rw [viewerVote_eq_like]
    exact userTagOf_isSome VoteType.like tags uid
  · rw [viewerVote_eq_dislike]
    constructor
    · rintro ⟨hL, hD⟩
      exact ⟨(userTagOf_none VoteType.like tags uid).mp hL,
        (userTagOf_isSome VoteType.dislike tags uid).mp hD⟩
    · rintro ⟨hL, hD⟩
      exact ⟨(userTagOf_none VoteType.like tags uid).mpr hL,
        (userTagOf_isSome VoteType.dislike tags uid).mpr hD⟩
  · rw [viewerVote_eq_none]
    constructor
    · rintro ⟨hL, hD⟩
      exact ⟨(userTagOf_none VoteType.like tags uid).mp hL,
        (userTagOf_none VoteType.dislike tags uid).mp hD⟩
    · rintro ⟨hL, hD⟩
      exact ⟨(userTagOf_none VoteType.like tags uid).mpr hL,
        (userTagOf_none VoteType.dislike tags uid).mpr hD⟩

/-- Counterexample to claim C2 as stated: viewer `bob` is attributed the tag
`vote:like:bob2:1`, whose embedded userid segment is `bob2`, not `bob` — the
code's prefix test disagrees with the spec's exact-segment-equality rule. -/
theorem inline_viewer_vote_userid_cex :
    viewerVote ["vote:like:bob2:1"] "bob" = Vote.like ∧
    specTagUserSeg "vote:like:bob2:1" = some "bob2" ∧
    specViewerVote ["vote:like:bob2:1"] "bob" = Vote.none := by
  decide

/-- Claim C9 (confirmed): a vote request from a viewer who is not logged in
produces the login-required outcome in both scheme variants — no save, delete
or create is issued and no tag list is mutated. -/
theorem unauthenticated_vote_no_mutation :
    ∀ (tags : List String) (uid : String) (ty : VoteType) (ts : Nat)
      (allAnns : List Ann) (target : Ann) (iso : String),
      handleVote false tags uid ty ts = VoteEffect.requiresLogin ∧
      onVote false allAnns target uid iso ty = ReplyVoteEffect.requiresLogin := by
  intro tags uid ty ts allAnns target iso
  exact ⟨rfl, rfl⟩

/-- Claim C8 (confirmed): the flag action is offered exactly when flagging is
enabled in configuration, the viewer id is set (a non-null, non-empty string),
and the viewer differs from the annotation's author; in particular the author
can never flag their own annotation and an unauthenticated viewer can never
flag. -/
theorem can_flag_decision :
    ∀ (settings : Settings) (userid : Option String) (annUser : String),
      (showFlagAction settings userid annUser = true ↔
        (flaggingEnabled settings = true ∧
         (∃ u, userid = some u ∧ u ≠ "") ∧
         userid ≠ some annUser)) ∧
      showFlagAction settings (some annUser) annUser = false ∧
      showFlagAction settings Option.none annUser = false := by
  intro settings userid annUser
  refine ⟨?_, ?_, ?_⟩
  · cases userid with
    | none => simp [showFlagAction, jsTruthyStr]
    | some u =>
      simp [showFlagAction, jsTruthyStr, and_assoc]
  · simp [showFlagAction]
  · simp [showFlagAction, jsTruthyStr]

/-- Claim C10 (confirmed): flagging defaults to enabled — `flaggingEnabled` is
false exactly when a service configuration is present and sets `allowFlagging`
to the exact value `false`; with no service configuration, or with
`allowFlagging` unset or set to `true`, it is true. -/
theorem flagging_enabled_default :
    ∀ settings : Settings,
      (flaggingEnabled settings = false ↔
        ∃ svc, serviceConfig settings = some svc ∧ svc.allowFlagging = some false) ∧
      (flaggingEnabled settings = true ↔
        (serviceConfig settings = Option.none ∨
         ∃ svc, serviceConfig settings = some svc ∧ svc.allowFlagging ≠ some false)) := by
  intro settings
  obtain ⟨osvc⟩ := settings
  cases osvc with
  | none => simp [flaggingEnabled, serviceConfig]
  | some svc =>
    cases hb : svc.allowFlagging with
    | none => simp [flaggingEnabled, serviceConfig, hb]
    | some b => cases b <;> simp [flaggingEnabled, serviceConfig, hb]

/-- Claim C5 (amended): the code's vote replies are exactly the candidates with
non-empty references ending at the parent id carrying some tag that starts with
`vote:` (not only the exact tags `vote:like`/`vote:dislike`); the like and
dislike counts nevertheless agree with the spec's counts; the viewer's vote is
absent exactly when no code vote reply belongs to the viewer (a viewer reply
lacking `vote:like` is classified `dislike`). -/
theorem reply_scheme_derivation (allAnns : List Ann) (pid uid : String) :
    (∀ a, a ∈ getVoteReplies allAnns pid ↔
      (a ∈ allAnns ∧ a.references ≠ [] ∧ a.references.getLast? = some pid ∧
       ∃ t ∈ a.tags, jsStartsWith t "vote:" = true)) ∧
    replyLikeCount allAnns pid = specReplyLikeCount allAnns pid ∧
    replyDislikeCount allAnns pid = specReplyDislikeCount allAnns pid ∧
    (replyViewerVote allAnns pid uid = Option.none ↔
      ∀ r ∈ getVoteReplies allAnns pid, ¬(r.user = uid)) := by
  have hvlike : jsStartsWith "vote:like" "vote:" = true := by decide
  have hvdis : jsStartsWith "vote:dislike" "vote:" = true := by decide
  refine ⟨?_, ?_, ?_, ?_⟩
  · intro a
    unfold getVoteReplies
    rw [List.mem_filter]
    simp [List.length_pos, List.any_eq_true, and_assoc]
  · unfold replyLikeCount specReplyLikeCount getVoteReplies specVoteReplies
    rw [List.filter_filter, List.filter_filter]
    apply congrArg List.length
    apply List.filter_congr
    intro a _
    by_cases hc : a.tags.contains "vote:like" = true
    · have hm : "vote:like" ∈ a.tags := List.elem_iff.mp hc
      have hany : a.tags.any (fun t => jsStartsWith t "vote:") = true := by
        rw [List.any_eq_true]
        exact ⟨"vote:like", hm, hvlike⟩
      simp [hm, hany]
    · have hm : ¬("vote:like" ∈ a.tags) := fun m => hc (List.elem_iff.mpr m)
      simp [hm]
  · unfold replyDislikeCount specReplyDislikeCount getVoteReplies specVoteReplies
    rw [List.filter_filter, List.filter_filter]
    apply congrArg List.length
    apply List.filter_congr
    intro a _
    by_cases hc : a.tags.contains "vote:dislike" = true
    · have hm : "vote:dislike" ∈ a.tags := List.elem_iff.mp hc
      have hany : a.tags.any (fun t => jsStartsWith t "vote:") = true := by
        rw [List.any_eq_true]
        exact ⟨"vote:dislike", hm, hvdis⟩
      simp [hm, hany]
    · have hm : ¬("vote:dislike" ∈ a.tags) := fun m => hc (List.elem_iff.mpr m)
      simp [hm]
  · unfold replyViewerVote myExistingVote
    cases hf : (getVoteReplies allAnns pid).find? (fun r => r.user == uid) with
    | none =>
      simp only [hf]
      constructor
      · intro _ r hr
        have h2 := List.find?_eq_none.mp hf r hr
        simpa using h2
      · intro _
        trivial
    | some r =>
      simp only [hf]
      have hr := List.find?_some hf
      have hmem := List.mem_of_find?_eq_some hf
      rw [beq_iff_eq] at hr
      constructor
      · intro h
        cases h
      · intro hall
        exact absurd hr (hall r hmem)

/-- Counterexample to claim C5 as stated: a reply tagged `vote:banana` (which
starts with `vote:` but contains neither `vote:like` nor `vote:dislike`) is a
vote reply for the code and is classified as the viewer's dislike, while the
spec's filtering yields no viewer vote. -/
theorem reply_scheme_derivation_cex :
    replyViewerVote
      [{ id := "r1", user := "bob", tags := ["vote:banana"], references := ["a1"] }]
      "a1" "bob" = some VoteType.dislike ∧
    specReplyViewerVote
      [{ id := "r1", user := "bob", tags := ["vote:banana"], references := ["a1"] }]
      "a1" "bob" = Option.none := by
  decide
